import Mathlib

/-!
Shallow embedding of the QA chatbot client's session and query lifecycle
(the `App` component: vehicle catalog, conversation session, ask pipeline),
together with theorems about its state machine.
-/

namespace QAChatbot

/-- JS `String.prototype.trim()`: strip whitespace from both ends of a string
(used by the submit guard `!question.trim()`). -/
def jsTrim (s : String) : String :=
  String.mk (((s.data.dropWhile Char.isWhitespace).reverse.dropWhile Char.isWhitespace).reverse)

/-- A transcript entry, as built by `selectVehicle` / `ask`:
`{ type, content, timestamp, sources }`.  `content` is `none` when the code
stores JS `undefined` there (`data.answer` absent); `sources` is `none` when
the message carries no `sources` field at all (user and error messages). -/
structure Message where
  type : String
  content : Option String
  timestamp : Nat
  sources : Option (List String)
deriving DecidableEq, Repr

/-- The component state: one field per `useState` hook of `App`. -/
structure AppState where
  question : String
  selectedVehicle : String
  availableVehicles : List String
  allVehicles : List String
  vehicleSelectionStep : Bool
  messages : List Message
  loading : Bool
  loadingStep : String
deriving DecidableEq, Repr

/-- A network request issued by the component: the startup catalog fetch
`GET /vehicles`, or `POST /ask` with body `{ q, vehicle }`. -/
inductive Request where
  | vehicles : Request
  | ask (q : String) (vehicle : String) : Request
deriving DecidableEq, Repr

/-- Result of `res.json()` on the `/ask` response: either the promise rejects
(invalid JSON), or it yields an object whose `answer` / `sources` fields may
each be present or absent. -/
inductive BodyParse where
  | parseError (msg : String) : BodyParse
  | parsed (answer : Option String) (sources : Option (List String)) : BodyParse
deriving DecidableEq, Repr

/-- Outcome of the `fetch` to `/ask`: the fetch promise rejects (network
failure, no response), or a response arrives with its `ok` flag, `status`,
and the eventual result of parsing its body. -/
inductive FetchOutcome where
  | networkError (msg : String) : FetchOutcome
  | response (ok : Bool) (status : Nat) (body : BodyParse) : FetchOutcome
deriving DecidableEq, Repr

/-- Outcome of the `fetch` + `res.json()` round trip to `/vehicles`: any throw
along the way (fetch rejection, JSON parse failure, `data` not an object) is a
`failure`; otherwise the two lists read off the body. -/
inductive VehiclesOutcome where
  | failure (msg : String) : VehiclesOutcome
  | success (vehicles : List String) (availableVehicles : List String) : VehiclesOutcome
deriving DecidableEq, Repr

/-- The hard-coded initial catalog of both `availableVehicles` and
`allVehicles`. -/
def defaultVehicles : List String :=
  ["SONATA", "SANTAFE", "TUCSON", "AVANTE", "GRANDEUR", "PALISADE"]

/-- The component's initial state: the `useState` initial values. -/
def initState : AppState :=
  { question := ""
    selectedVehicle := ""
    availableVehicles := defaultVehicles
    allVehicles := defaultVehicles
    vehicleSelectionStep := true
    messages := []
    loading := false
    loadingStep := "" }

/-- Continuation of `fetchVehicles` once the `/vehicles` round trip settles:
on success replace the two catalog lists; on any throw, only
`console.error('차량 목록 로드 오류:', error)` runs.  Returns the new state, the
console log lines emitted, and the follow-up requests issued (none: the catch
block performs no retry). -/
def fetchVehiclesResume (s : AppState) (o : VehiclesOutcome) :
    AppState × List String × List Request :=
  match o with
  | .success v a => ({ s with allVehicles := v, availableVehicles := a }, [], [])
  | .failure m => (s, ["차량 목록 로드 오류: " ++ m], [])

/-- The synthetic welcome message seeded by `selectVehicle`. -/
def welcomeMessage (vehicle : String) (now : Nat) : Message :=
  { type := "bot"
    content := some ("안녕하세요! **" ++ vehicle ++
      "** 매뉴얼 QA 어시스턴트입니다. 차량 관련 궁금한 점을 언제든 물어보세요.")
    timestamp := now
    sources := none }

/-- `selectVehicle(vehicle)`: record the selection, leave the selection
screen, and seed `messages` with exactly the welcome message. -/
def selectVehicle (s : AppState) (vehicle : String) (now : Nat) : AppState :=
  { s with selectedVehicle := vehicle
           vehicleSelectionStep := false
           messages := [welcomeMessage vehicle now] }

/-- The vehicle card's click handler on the selection screen:
`onClick={() => isAvailable && selectVehicle(vehicle)}`, where
`isAvailable = availableVehicles.includes(vehicle)`.  For an unavailable code
the short-circuit makes the click a no-op. -/
def vehicleCardClick (s : AppState) (vehicle : String) (now : Nat) : AppState :=
  if s.availableVehicles.contains vehicle then selectVehicle s vehicle now else s

/-- `changeVehicle()`: back to the selection screen, clearing the selection,
the transcript and the draft question.  (`loading` and `loadingStep` are not
touched.) -/
def changeVehicle (s : AppState) : AppState :=
  { s with vehicleSelectionStep := true
           selectedVehicle := ""
           messages := []
           question := "" }

/-- The user message `ask` appends before issuing the request. -/
def mkUserMessage (q : String) (now : Nat) : Message :=
  { type := "user", content := some q, timestamp := now, sources := none }

/-- The bot message appended by the catch block of `ask`. -/
def mkErrorMessage (reason : String) (now : Nat) : Message :=
  { type := "bot"
    content := some ("죄송합니다. 오류가 발생했습니다: " ++ reason)
    timestamp := now
    sources := none }

/-- The bot message appended on the success path of `ask`:
`content = data.answer` (absent stays absent), `sources = data.sources || []`. -/
def mkBotMessage (answer : Option String) (sources : Option (List String))
    (now : Nat) : Message :=
  { type := "bot", content := answer, timestamp := now, sources := some (sources.getD []) }

/-- The synchronous prefix of `ask()`, up to and including issuing the fetch:
the guard `if (!question.trim() || !selectedVehicle) return;`, then append the
user message, clear the draft, set `loading` and the searching step, and emit
the `POST /ask` request.  Returns the state reached and the requests issued. -/
def askStart (s : AppState) (now : Nat) : AppState × List Request :=
  if jsTrim s.question = "" ∨ s.selectedVehicle = "" then (s, [])
  else
    ({ s with messages := s.messages ++ [mkUserMessage s.question now]
              question := ""
              loading := true
              loadingStep := "매뉴얼 검색 중..." },
     [Request.ask s.question s.selectedVehicle])

/-- The first statement after `await fetch(...)` resolves with a response:
`setLoadingStep("답변 생성 중...")` — runs before `res.ok` is checked and before
the body is parsed. -/
def askReceive (s : AppState) : AppState :=
  { s with loadingStep := "답변 생성 중..." }

/-- The catch block of `ask()`: append the error bot message and clear the
loading flags. -/
def askCatch (s : AppState) (reason : String) (now : Nat) : AppState :=
  { s with messages := s.messages ++ [mkErrorMessage reason now]
           loading := false
           loadingStep := "" }

/-- The rest of the `try` block after the generating step is shown: throw on
`!res.ok` (message `HTTP error! status: <status>`), otherwise parse the body;
a parse rejection lands in the catch, a parsed body is appended as a bot
message and the loading flags are cleared. -/
def askSettle (s : AppState) (ok : Bool) (status : Nat) (body : BodyParse)
    (now : Nat) : AppState :=
  if ok = false then askCatch s ("HTTP error! status: " ++ toString status) now
  else
    match body with
    | .parseError m => askCatch s m now
    | .parsed answer sources =>
        { s with messages := s.messages ++ [mkBotMessage answer sources now]
                 loading := false
                 loadingStep := "" }

/-- The continuation of `ask()` once the fetch settles, applied to whatever
the component state is at that moment (the `setMessages(prev => ...)` updater
reads the then-current transcript): a rejected fetch goes straight to the
catch; a response first shows the generating step, then settles. -/
def askResume (s : AppState) (o : FetchOutcome) (now : Nat) : AppState :=
  match o with
  | .networkError m => askCatch s m now
  | .response ok status body => askSettle (askReceive s) ok status body now

/-- A whole `ask()` round trip in which nothing else runs between issuing the
request and handling its outcome `o`.  `n₁` is the time of submission, `n₂`
the time the outcome is handled. -/
def askRun (s : AppState) (o : FetchOutcome) (n₁ n₂ : Nat) : AppState × List Request :=
  if jsTrim s.question = "" ∨ s.selectedVehicle = "" then (s, [])
  else (askResume (askStart s n₁).1 o n₂, (askStart s n₁).2)

/-- The loading phase of the spec, read off the `loading` / `loadingStep`
hooks. -/
inductive Phase where
  | idle : Phase
  | searching : Phase
  | generating : Phase
  | other : Phase
deriving DecidableEq, Repr

/-- Abstraction from the component state to the spec's phase. -/
def phase (s : AppState) : Phase :=
  if s.loading = false then .idle
  else if s.loadingStep = "매뉴얼 검색 중..." then .searching
  else if s.loadingStep = "답변 생성 중..." then .generating
  else .other

/-- The user-interface events of the component, with the serialized `ask`
round trip as a single event. -/
inductive Event where
  | selectClick (vehicle : String) (now : Nat) : Event
  | changeClick : Event
  | setQuestionInput (q : String) : Event
  | submitRound (o : FetchOutcome) (n₁ n₂ : Nat) : Event
deriving DecidableEq, Repr

/-- One user-interface event: a vehicle card exists (and is clickable) only on
the selection screen and only for codes in `allVehicles`; the question input
and the submit surfaces exist only on the chat screen. -/
def step (s : AppState) (e : Event) : AppState :=
  match e with
  | .selectClick v now =>
      if s.vehicleSelectionStep && s.allVehicles.contains v then
        vehicleCardClick s v now
      else s
  | .changeClick => changeVehicle s
  | .setQuestionInput q =>
      if s.vehicleSelectionStep then s else { s with question := q }
  | .submitRound o n₁ n₂ =>
      if s.vehicleSelectionStep then s else (askRun s o n₁ n₂).1

/-- States reachable from the initial state by catalog-fetch completions and
serialized user-interface events. -/
inductive Reachable : AppState → Prop where
  | init : Reachable initState
  | fetchResume (s : AppState) (o : VehiclesOutcome) :
      Reachable s → Reachable (fetchVehiclesResume s o).1
  | step (s : AppState) (e : Event) : Reachable s → Reachable (step s e)

/-- A concrete chat-screen state with a drafted question, used to instantiate
theorems. -/
def sampleChat : AppState :=
  { initState with
      selectedVehicle := "SONATA"
      vehicleSelectionStep := false
      messages := [welcomeMessage "SONATA" 0]
      question := "엔진오일 교환 방법은?" }

/-- The in-flight state right after submitting from `sampleChat`, with the
draft refilled (as one of the always-enabled quick-action buttons does while
`loading` is set). -/
def loadingDraft : AppState :=
  { (askStart sampleChat 1).1 with question := "배터리 점검은 어떻게 하나요?" }

/- Helper lemmas shared by the claim theorems. -/

lemma askStart_spec (s : AppState) (n : Nat)
    (h : ¬ (jsTrim s.question = "" ∨ s.selectedVehicle = "")) :
    askStart s n =
      ({ s with messages := s.messages ++ [mkUserMessage s.question n]
                question := ""
                loading := true
                loadingStep := "매뉴얼 검색 중..." },
       [Request.ask s.question s.selectedVehicle]) := by
  unfold askStart
  exact if_neg h

lemma askStart_selectionStep (s : AppState) (n : Nat) :
    (askStart s n).1.vehicleSelectionStep = s.vehicleSelectionStep := by
  unfold askStart
  split <;> rfl

lemma askResume_messages (s : AppState) (o : FetchOutcome) (n : Nat) :
    ∃ b : Message, b.type = "bot" ∧ (askResume s o n).messages = s.messages ++ [b] := by
  cases o with
  | networkError m => exact ⟨mkErrorMessage m n, rfl, rfl⟩
  | response ok st body =>
    cases ok with
    | false => exact ⟨mkErrorMessage ("HTTP error! status: " ++ toString st) n, rfl, rfl⟩
    | true =>
      cases body with
      | parseError m => exact ⟨mkErrorMessage m n, rfl, rfl⟩
      | parsed a srcs => exact ⟨mkBotMessage a srcs n, rfl, rfl⟩

lemma askResume_fields (s : AppState) (o : FetchOutcome) (n : Nat) :
    (askResume s o n).selectedVehicle = s.selectedVehicle ∧
    (askResume s o n).vehicleSelectionStep = s.vehicleSelectionStep ∧
    (askResume s o n).loading = false ∧
    (askResume s o n).loadingStep = "" := by
  cases o with
  | networkError m => exact ⟨rfl, rfl, rfl, rfl⟩
  | response ok st body => cases ok <;> cases body <;> exact ⟨rfl, rfl, rfl, rfl⟩

lemma phase_idle_of_not_loading (s : AppState) (h : s.loading = false) :
    phase s = Phase.idle := by
  unfold phase
  rw [h]
  rfl

lemma askRun_spec (s : AppState) (o : FetchOutcome) (n₁ n₂ : Nat)
    (h : ¬ (jsTrim s.question = "" ∨ s.selectedVehicle = "")) :
    askRun s o n₁ n₂ = (askResume (askStart s n₁).1 o n₂, (askStart s n₁).2) := by
  unfold askRun
  exact if_neg h

lemma askRun_selectionStep (s : AppState) (o : FetchOutcome) (n₁ n₂ : Nat) :
    (askRun s o n₁ n₂).1.vehicleSelectionStep = s.vehicleSelectionStep := by
  unfold askRun
  split
  · rfl
  · show (askResume (askStart s n₁).1 o n₂).vehicleSelectionStep = s.vehicleSelectionStep
    rw [(askResume_fields (askStart s n₁).1 o n₂).2.1, askStart_selectionStep]

lemma askRun_messages (s : AppState) (o : FetchOutcome) (n₁ n₂ : Nat)
    (h : ¬ (jsTrim s.question = "" ∨ s.selectedVehicle = "")) :
    ∃ b : Message, b.type = "bot" ∧
      (askRun s o n₁ n₂).1.messages = s.messages ++ [mkUserMessage s.question n₁, b] := by
  obtain ⟨b, hb, hmsg⟩ := askResume_messages (askStart s n₁).1 o n₂
  refine ⟨b, hb, ?_⟩
  rw [askRun_spec s o n₁ n₂ h]
  show (askResume (askStart s n₁).1 o n₂).messages = _
  rw [hmsg, askStart_spec s n₁ h]
  simp

lemma askRun_length (s : AppState) (o : FetchOutcome) (n₁ n₂ : Nat) :
    s.messages.length ≤ (askRun s o n₁ n₂).1.messages.length := by
  by_cases h : jsTrim s.question = "" ∨ s.selectedVehicle = ""
  · unfold askRun
    rw [if_pos h]
  · obtain ⟨b, _, hmsg⟩ := askRun_messages s o n₁ n₂ h
    rw [hmsg]
    simp

lemma reachable_selecting_empty (s : AppState) (h : Reachable s) :
    s.vehicleSelectionStep = true → s.messages = [] := by
  induction h with
  | init => intro _; rfl
  | fetchResume s o _ ih =>
    cases o with
    | success v a => exact ih
    | failure m => exact ih
  | step s e _ ih =>
    cases e with
    | selectClick v now =>
      simp only [step]
      by_cases hg : (s.vehicleSelectionStep && s.allVehicles.contains v) = true
      · rw [if_pos hg]
        unfold vehicleCardClick
        by_cases ha : s.availableVehicles.contains v = true
        · rw [if_pos ha]
          intro hc
          exact absurd hc (by simp [selectVehicle])
        · rw [if_neg ha]
          exact ih
      · rw [if_neg hg]
        exact ih
    | changeClick => intro _; rfl
    | setQuestionInput q =>
      simp only [step]
      by_cases hsel : s.vehicleSelectionStep = true
      · rw [if_pos hsel]
        exact ih
      · rw [if_neg hsel]
        intro hc
        exact absurd hc hsel
    | submitRound o n₁ n₂ =>
      simp only [step]
      by_cases hsel : s.vehicleSelectionStep = true
      · rw [if_pos hsel]
        exact ih
      · rw [if_neg hsel]
        intro hc
        rw [askRun_selectionStep] at hc
        exact absurd hc hsel

/-- C5: for every vehicle code that is not in the available set (unavailable
or unknown), the vehicle card's click — the only caller of `selectVehicle` —
is a no-op: the state is unchanged, so the session stays on the selection
screen with its messages and selection untouched. -/
theorem select_unavailable_vehicle_noop (s : AppState) (v : String) (now : Nat)
    (h : s.availableVehicles.contains v = false) :
    vehicleCardClick s v now = s := by
  unfold vehicleCardClick
  rw [if_neg]
  rw [h]
  exact Bool.false_ne_true

/-- C5 witness: clicking the card of the unknown code IONIQ in the initial
state changes nothing. -/
theorem select_unavailable_vehicle_noop_witness :
    vehicleCardClick initState "IONIQ" 0 = initState :=
  select_unavailable_vehicle_noop initState "IONIQ" 0 (by decide)

/-- C6: in every state, `changeVehicle()` returns to the selection screen
with the selection cleared, the transcript empty and the draft question
cleared. -/
theorem changeVehicle_resets (s : AppState) :
    (changeVehicle s).vehicleSelectionStep = true ∧
    (changeVehicle s).selectedVehicle = "" ∧
    (changeVehicle s).messages = [] ∧
    (changeVehicle s).question = "" :=
  ⟨rfl, rfl, rfl, rfl⟩

/-- C7: under the submit preconditions, `ask` synchronously appends a user
message whose content is the submitted question and clears the draft, in the
same step that produces the single `POST /ask` request; and whatever the
outcome of that request, the user message is still in the transcript
afterwards. -/
theorem ask_user_message_before_network (s : AppState) (n₁ n₂ : Nat)
    (o : FetchOutcome)
    (h₁ : ¬ jsTrim s.question = "") (h₂ : ¬ s.selectedVehicle = "") :
    (askStart s n₁).1.messages = s.messages ++ [mkUserMessage s.question n₁] ∧
    (askStart s n₁).1.question = "" ∧
    (askStart s n₁).2 = [Request.ask s.question s.selectedVehicle] ∧
    mkUserMessage s.question n₁ ∈ (askResume (askStart s n₁).1 o n₂).messages := by
  have hg : ¬ (jsTrim s.question = "" ∨ s.selectedVehicle = "") := not_or.mpr ⟨h₁, h₂⟩
  obtain ⟨b, _, hmsg⟩ := askResume_messages (askStart s n₁).1 o n₂
  rw [hmsg, askStart_spec s n₁ hg]
  refine ⟨rfl, rfl, rfl, ?_⟩
  simp

/-- C7 witness: instantiated at the sample chat state with a failing fetch. -/
theorem ask_user_message_before_network_witness :
    (askStart sampleChat 1).1.messages =
      sampleChat.messages ++ [mkUserMessage sampleChat.question 1] ∧
    (askStart sampleChat 1).1.question = "" ∧
    (askStart sampleChat 1).2 =
      [Request.ask sampleChat.question sampleChat.selectedVehicle] ∧
    mkUserMessage sampleChat.question 1 ∈
      (askResume (askStart sampleChat 1).1 (.networkError "Failed to fetch") 2).messages :=
  ask_user_message_before_network sampleChat 1 2 (.networkError "Failed to fetch")
    (by decide) (by decide)

/-- C8: under the submit preconditions, the loading phase is `searching` in
the very state from which the request (carrying the question and the selected
vehicle) is emitted; when a response is received the phase becomes
`generating`, and the settling of every response factors through that
generating state before the body is consulted; and for every outcome the
phase afterwards is `idle`. -/
theorem ask_phase_sequence (s : AppState) (n₁ n₂ : Nat)
    (ok : Bool) (st : Nat) (b : BodyParse) (o : FetchOutcome)
    (h₁ : ¬ jsTrim s.question = "") (h₂ : ¬ s.selectedVehicle = "") :
    (askStart s n₁).2 = [Request.ask s.question s.selectedVehicle] ∧
    phase (askStart s n₁).1 = Phase.searching ∧
    phase (askReceive (askStart s n₁).1) = Phase.generating ∧
    askResume (askStart s n₁).1 (.response ok st b) n₂ =
      askSettle (askReceive (askStart s n₁).1) ok st b n₂ ∧
    phase (askResume (askStart s n₁).1 o n₂) = Phase.idle := by
  have hg : ¬ (jsTrim s.question = "" ∨ s.selectedVehicle = "") := not_or.mpr ⟨h₁, h₂⟩
  refine ⟨?_, ?_, ?_, rfl, ?_⟩
  · rw [askStart_spec s n₁ hg]
  · rw [askStart_spec s n₁ hg]
    rfl
  · rw [askStart_spec s n₁ hg]
    rfl
  · exact phase_idle_of_not_loading _ (askResume_fields (askStart s n₁).1 o n₂).2.2.1

/-- C8 witness: instantiated at the sample chat state, an HTTP 500 response
and a network-error outcome. -/
theorem ask_phase_sequence_witness :
    (askStart sampleChat 1).2 =
      [Request.ask sampleChat.question sampleChat.selectedVehicle] ∧
    phase (askStart sampleChat 1).1 = Phase.searching ∧
    phase (askReceive (askStart sampleChat 1).1) = Phase.generating ∧
    askResume (askStart sampleChat 1).1 (.response false 500 (.parsed none none)) 2 =
      askSettle (askReceive (askStart sampleChat 1).1) false 500 (.parsed none none) 2 ∧
    phase (askResume (askStart sampleChat 1).1 (.networkError "Failed to fetch") 2) =
      Phase.idle :=
  ask_phase_sequence sampleChat 1 2 false 500 (.parsed none none)
    (.networkError "Failed to fetch") (by decide) (by decide)

/-- C9: a failing `/vehicles` round trip leaves the whole component state —
in particular `allVehicles` and `availableVehicles` — unchanged, emits exactly
the one console log line, and issues no follow-up request (no retry, and
nothing is appended to the transcript for the user to see). -/
theorem fetchVehicles_failure_keeps_catalog (s : AppState) (m : String) :
    fetchVehiclesResume s (.failure m) = (s, ["차량 목록 로드 오류: " ++ m], []) :=
  rfl

/-- C10: initially both catalog lists hold exactly the six built-in codes,
every one of them is available, a failed `/vehicles` fetch leaves that state
intact, and clicking any of the six then leaves the selection screen with
that vehicle selected. -/
theorem default_catalog_all_available :
    initState.allVehicles = ["SONATA", "SANTAFE", "TUCSON", "AVANTE", "GRANDEUR", "PALISADE"] ∧
    initState.availableVehicles = ["SONATA", "SANTAFE", "TUCSON", "AVANTE", "GRANDEUR", "PALISADE"] ∧
    (∀ m : String, (fetchVehiclesResume initState (.failure m)).1 = initState) ∧
    (∀ v ∈ defaultVehicles,
       (step initState (.selectClick v 0)).vehicleSelectionStep = false ∧
       (step initState (.selectClick v 0)).selectedVehicle = v) := by
  refine ⟨rfl, rfl, fun m => rfl, ?_⟩
  intro v hv
  fin_cases hv <;> exact ⟨by decide, by decide⟩

/-- C10 witness: after a failed catalog fetch, SONATA is still selectable
from the (unchanged) initial state. -/
theorem default_catalog_all_available_witness :
    (fetchVehiclesResume initState (.failure "Failed to fetch")).1 = initState ∧
    (step initState (.selectClick "SONATA" 0)).vehicleSelectionStep = false ∧
    (step initState (.selectClick "SONATA" 0)).selectedVehicle = "SONATA" :=
  ⟨default_catalog_all_available.2.2.1 "Failed to fetch",
   default_catalog_all_available.2.2.2 "SONATA" (by decide)⟩

/-- C1: concrete trace showing the code's behavior when `changeVehicle()` is
invoked between request issuance and response arrival: submitting from the
sample chat state puts the session in the searching phase; `changeVehicle`
then empties the transcript and returns to the selection screen; yet when the
response resolves, its continuation appends the bot answer to the then-current
(post-reset) transcript, so the stale bot message is exactly the content of
the new session's `messages` — it is not discarded. -/
theorem stale_response_appended_after_reset :
    phase (askStart sampleChat 1).1 = Phase.searching ∧
    (changeVehicle (askStart sampleChat 1).1).messages = [] ∧
    (changeVehicle (askStart sampleChat 1).1).vehicleSelectionStep = true ∧
    (askResume (changeVehicle (askStart sampleChat 1).1)
        (.response true 200 (.parsed (some "오일을 교환하세요") (some []))) 3).messages =
      [mkBotMessage (some "오일을 교환하세요") (some []) 3] := by
  decide

/-- C2 counterexample: `loadingDraft` is an in-flight state (phase is not
idle) with a non-empty draft — reachable because the quick-action buttons
refill the draft while `loading` is set.  A further submit call there changes
the state and issues a second `POST /ask` request: `ask` itself does not gate
on the loading phase. -/
theorem submit_while_loading_issues_second_request :
    phase loadingDraft = Phase.searching ∧
    loadingDraft.loading = true ∧
    (askStart loadingDraft 2).1 ≠ loadingDraft ∧
    (askStart loadingDraft 2).2 = [Request.ask "배터리 점검은 어떻게 하나요?" "SONATA"] := by
  decide

/-- C2 amended: a submit starts an in-flight query (phase `searching`) and in
the same step clears the draft, and a further submit call on the resulting
in-flight state produces no state change and issues no network request —
because the guard rejects the blank draft, not because `ask` checks the
phase; a submit call during flight with a refilled draft is not rejected. -/
theorem submit_during_flight_noop_via_blank_draft (s : AppState) (n₁ n₂ : Nat)
    (h₁ : ¬ jsTrim s.question = "") (h₂ : ¬ s.selectedVehicle = "") :
    phase (askStart s n₁).1 = Phase.searching ∧
    askStart (askStart s n₁).1 n₂ = ((askStart s n₁).1, []) := by
  have hg : ¬ (jsTrim s.question = "" ∨ s.selectedVehicle = "") := not_or.mpr ⟨h₁, h₂⟩
  constructor
  · rw [askStart_spec s n₁ hg]
    rfl
  · rw [askStart_spec s n₁ hg]
    unfold askStart
    rw [if_pos (Or.inl (show jsTrim "" = "" by decide))]

/-- C2 amended witness: instantiated at the sample chat state. -/
theorem submit_during_flight_noop_via_blank_draft_witness :
    phase (askStart sampleChat 1).1 = Phase.searching ∧
    askStart (askStart sampleChat 1).1 2 = ((askStart sampleChat 1).1, []) :=
  submit_during_flight_noop_via_blank_draft sampleChat 1 2 (by decide) (by decide)

/-- C3: (a) under the submit preconditions, every completed submission —
whatever the fetch outcome — leaves the transcript equal to its old value
followed by exactly one user message (carrying the question) and exactly one
bot message; (b) along reachable serialized executions, no event other than
the change-vehicle click ever shrinks the transcript. -/
theorem ask_appends_two_and_transcript_monotone :
    (∀ (s : AppState) (o : FetchOutcome) (n₁ n₂ : Nat),
        ¬ jsTrim s.question = "" → ¬ s.selectedVehicle = "" →
        ∃ b : Message, b.type = "bot" ∧ (mkUserMessage s.question n₁).type = "user" ∧
          (askRun s o n₁ n₂).1.messages =
            s.messages ++ [mkUserMessage s.question n₁, b]) ∧
    (∀ (s : AppState) (e : Event), Reachable s → ¬ e = Event.changeClick →
        s.messages.length ≤ (step s e).messages.length) := by
  constructor
  · intro s o n₁ n₂ h₁ h₂
    obtain ⟨b, hb, hmsg⟩ := askRun_messages s o n₁ n₂ (not_or.mpr ⟨h₁, h₂⟩)
    exact ⟨b, hb, rfl, hmsg⟩
  · intro s e hreach hne
    cases e with
    | selectClick v now =>
      simp only [step]
      by_cases hg : (s.vehicleSelectionStep && s.allVehicles.contains v) = true
      · rw [if_pos hg]
        have hsel : s.vehicleSelectionStep = true := ((Bool.and_eq_true _ _).mp hg).1
        have hempty := reachable_selecting_empty s hreach hsel
        unfold vehicleCardClick
        by_cases ha : s.availableVehicles.contains v = true
        · rw [if_pos ha, hempty]
          simp [selectVehicle]
        · rw [if_neg ha]
      · rw [if_neg hg]
    | changeClick => exact absurd rfl hne
    | setQuestionInput q =>
      simp only [step]
      by_cases hsel : s.vehicleSelectionStep = true
      · rw [if_pos hsel]
      · rw [if_neg hsel]
    | submitRound o n₁ n₂ =>
      simp only [step]
      by_cases hsel : s.vehicleSelectionStep = true
      · rw [if_pos hsel]
      · rw [if_neg hsel]
        exact askRun_length s o n₁ n₂

/-- C3 witness: instantiated at the sample chat state with a network failure,
and at the initial state with a typing event. -/
theorem ask_appends_two_and_transcript_monotone_witness :
    (∃ b : Message, b.type = "bot" ∧ (mkUserMessage sampleChat.question 1).type = "user" ∧
        (askRun sampleChat (.networkError "Failed to fetch") 1 2).1.messages =
          sampleChat.messages ++ [mkUserMessage sampleChat.question 1, b]) ∧
    initState.messages.length ≤
      (step initState (.setQuestionInput "엔진오일")).messages.length :=
  ⟨ask_appends_two_and_transcript_monotone.1 sampleChat (.networkError "Failed to fetch")
      1 2 (by decide) (by decide),
   ask_appends_two_and_transcript_monotone.2 initState (.setQuestionInput "엔진오일")
      Reachable.init (by decide)⟩

/-- C4 counterexample: an OK response whose body parses but has no `answer`
field is not treated as an error: the appended bot message has no content at
all (rather than a user-facing error string), although loading is cleared. -/
theorem missing_answer_field_not_treated_as_error :
    (askRun sampleChat (.response true 200 (.parsed none none)) 1 2).1.messages =
      sampleChat.messages ++
        [mkUserMessage "엔진오일 교환 방법은?" 1, mkBotMessage none none 2] ∧
    (mkBotMessage none none 2).content = none ∧
    (mkBotMessage none none 2).sources = some [] ∧
    (askRun sampleChat (.response true 200 (.parsed none none)) 1 2).1.loading = false := by
  decide

/-- C4 amended: only a response body that fails JSON parsing is treated
identically to an HTTP error — the catch appends a bot message embedding the
failure reason and clears loading; a parseable body missing the expected
fields is instead appended as an ordinary bot message whose content is the
(possibly absent) `answer` field, with loading likewise cleared. -/
theorem ask_malformed_body_behavior (s : AppState) (st : Nat) (m : String)
    (ans : Option String) (srcs : Option (List String)) (n₁ n₂ : Nat)
    (h₁ : ¬ jsTrim s.question = "") (h₂ : ¬ s.selectedVehicle = "") :
    (askRun s (.response true st (.parseError m)) n₁ n₂).1.messages =
      s.messages ++ [mkUserMessage s.question n₁, mkErrorMessage m n₂] ∧
    (askRun s (.response true st (.parseError m)) n₁ n₂).1.loading = false ∧
    (askRun s (.response true st (.parsed ans srcs)) n₁ n₂).1.messages =
      s.messages ++ [mkUserMessage s.question n₁, mkBotMessage ans srcs n₂] ∧
    (askRun s (.response true st (.parsed ans srcs)) n₁ n₂).1.loading = false := by
  have hg : ¬ (jsTrim s.question = "" ∨ s.selectedVehicle = "") := not_or.mpr ⟨h₁, h₂⟩
  rw [askRun_spec s (.response true st (.parseError m)) n₁ n₂ hg,
      askRun_spec s (.response true st (.parsed ans srcs)) n₁ n₂ hg]
  refine ⟨?_, (askResume_fields _ _ _).2.2.1, ?_, (askResume_fields _ _ _).2.2.1⟩ <;>
    (rw [askStart_spec s n₁ hg]; simp [askResume, askSettle, askReceive, askCatch])

/-- C4 amended witness: instantiated at the sample chat state with a JSON
syntax error and with a body missing both fields. -/
theorem ask_malformed_body_behavior_witness :
    (askRun sampleChat (.response true 200 (.parseError "Unexpected end of JSON input")) 1 2).1.messages =
      sampleChat.messages ++
        [mkUserMessage sampleChat.question 1,
         mkErrorMessage "Unexpected end of JSON input" 2] ∧
    (askRun sampleChat (.response true 200 (.parseError "Unexpected end of JSON input")) 1 2).1.loading = false ∧
    (askRun sampleChat (.response true 200 (.parsed none none)) 1 2).1.messages =
      sampleChat.messages ++
        [mkUserMessage sampleChat.question 1, mkBotMessage none none 2] ∧
    (askRun sampleChat (.response true 200 (.parsed none none)) 1 2).1.loading = false :=
  ask_malformed_body_behavior sampleChat 200 "Unexpected end of JSON input" none none 1 2
    (by decide) (by decide)

end QAChatbot
